import Mathlib

/-!
A shallow embedding of the field-recognition and record-reconstruction engine
of the CashMate OCR/PDF microservice (`python-microservice/main.py`), together
with theorems settling the specification claims about it.

Modelling conventions:
* Python strings are modelled as `String` / `List Char`; `str.strip()`,
  `str.lower()`, `'sub' in s` and friends are modelled by explicit list
  functions below.
* Monetary values are modelled as exact rationals `ℚ` (the code parses
  amounts through `Decimal`); Python's `round(x, 2)` is modelled as exact
  round-half-even to two decimal places on `ℚ`.
* `datetime.now().year` is modelled as an explicit parameter `cy` (current
  year) threaded through the date parsers.
* Python regular expressions are modelled by a small backtracking regex
  engine (`RE` / `runRE`) whose enumeration order mirrors Python's
  leftmost, greedy, first-alternative-first backtracking semantics; each
  pattern of the source is transliterated into an `RE` value.
-/

/-! ## String utilities (Python `str` operations) -/

/-- Python whitespace class `\s` over ASCII. -/
def pyWs (c : Char) : Bool :=
  c = ' ' || c = '\t' || c = '\n' || c = '\x0b' || c = '\x0c' || c = '\r'

/-- Source: `str.strip()`: drop leading and trailing whitespace. -/
def trimL (l : List Char) : List Char :=
  ((l.dropWhile pyWs).reverse.dropWhile pyWs).reverse

/-- Source: `str.lower()` (ASCII). -/
def lowerL (l : List Char) : List Char := l.map Char.toLower

/-- Python's substring test `needle in hay`. -/
def listContains (hay needle : List Char) : Bool :=
  if needle.isPrefixOf hay then true
  else
    match hay with
    | [] => false
    | _ :: t => listContains t needle

/-- Source: `needle in hay` for a `String` needle against a char-list haystack. -/
def containsS (hay : List Char) (needle : String) : Bool :=
  listContains hay needle.data

/-- Source: `re.search('k1|k2|...', hay)` truthiness: some keyword occurs in `hay`. -/
def containsAnyL (hay : List Char) (ks : List String) : Bool :=
  ks.any (fun k => listContains hay k.data)

/-- Source: `text.split('\n')`, keeping empty pieces, on a char list. -/
def splitNl : List Char → List (List Char)
  | [] => [[]]
  | c :: rest =>
    match splitNl rest with
    | [] => if c = '\n' then [[], []] else [[c]]
    | h :: t => if c = '\n' then [] :: h :: t else (c :: h) :: t

/-! ## Exact decimal arithmetic -/

/-- Value of a digit string (most significant first). -/
def digitsToNat (l : List Char) : Nat :=
  l.foldl (fun a c => 10 * a + (c.toNat - 48)) 0

def digitOrDot (c : Char) : Bool := c.isDigit || c = '.'

/-- Source: `Decimal(s)` (equivalently `float(s)` for the plain digit/dot strings the
code feeds it): parses an unsigned decimal numeral made of digits and at most
one decimal point, with at least one digit; anything else is a parse error. -/
def parseDecQ (l : List Char) : Option ℚ :=
  if l.all digitOrDot && decide (l.count '.' ≤ 1) && l.any Char.isDigit then
    let ip := l.takeWhile (fun c => c ≠ '.')
    let fp := (l.dropWhile (fun c => c ≠ '.')).drop 1
    some ((digitsToNat ip : ℚ) + (digitsToNat fp : ℚ) / ((10 : ℚ) ^ fp.length))
  else none

/-- Floor of a rational, computed with flooring integer division. -/
def floorQ (q : ℚ) : ℤ := q.num.fdiv (q.den : ℤ)

/-- Round-half-even to the nearest integer (the rounding of Python's
`round` / IEEE, on exact rationals). -/
def rhe (q : ℚ) : ℤ :=
  let n := floorQ q
  let f := q - (n : ℚ)
  if f < 1/2 then n else if 1/2 < f then n + 1 else if n % 2 = 0 then n else n + 1

/-- Python `round(q, 2)` on exact rationals. -/
def round2 (q : ℚ) : ℚ := ((rhe (q * 100) : ℚ)) / 100

/-! ## Data model -/

/-- Source: `Transaction.transaction_type`: the code only ever constructs the two
string values `'credit'` and `'debit'` (`main.py` line 43). -/
inductive TType where
  | credit : TType
  | debit : TType
deriving DecidableEq

/-- Pydantic model `Transaction` (`main.py` lines 38-44). -/
structure Transaction where
  date : String
  description : String
  amount : ℚ
  balance : Option ℚ
  transaction_type : TType
  category : Option String
deriving DecidableEq

/-- The opening/closing-balance part of the `account_info` dict consumed by
`calculate_summary` (a key absent from the dict is `none`). -/
structure AccountInfo where
  opening_balance : Option ℚ
  closing_balance : Option ℚ
deriving DecidableEq

/-- The summary dict built by `PDFParser.calculate_summary`. -/
structure Summary where
  total_credits : ℚ
  total_debits : ℚ
  transaction_count : Nat
  opening_balance : Option ℚ
  closing_balance : Option ℚ
deriving DecidableEq

/-! ## Amount Normalizer: `PDFParser.clean_amount` (`main.py` 350-377) -/

namespace PDFParser

def isCurrencyComma (c : Char) : Bool :=
  c = '₹' || c = '$' || c = '€' || c = '£' || c = '¥' || c = ','

/-- Source: `re.sub(r'[₹$€£¥,]', '', str(amount_str).strip())`. -/
def stage1 (s : String) : List Char :=
  (trimL s.data).filter (fun c => !(isCurrencyComma c))

/-- Source: `cleaned.startswith('(') and cleaned.endswith(')')`. -/
def parenNeg (l : List Char) : Bool :=
  l.head? == some '(' && l.getLast? == some ')'

/-- Source: `cleaned = cleaned[1:-1]` when parenthesised. -/
def afterParen (l : List Char) : List Char :=
  if parenNeg l then (l.drop 1).dropLast else l

/-- Source: `cleaned.startswith('-')`. -/
def minusNeg (l : List Char) : Bool := l.head? == some '-'

/-- Source: `cleaned = cleaned[1:]` when minus-signed. -/
def afterMinus (l : List Char) : List Char :=
  if minusNeg l then l.drop 1 else l

/-- What is left after all the stripping steps of `clean_amount`
(currency glyphs/commas, negative markers, then `re.sub(r'[^\d.]', '', _)`). -/
def cleanedRemainder (s : String) : List Char :=
  (afterMinus (afterParen (stage1 s))).filter digitOrDot

/-- Source: `PDFParser.clean_amount`: normalize a raw amount string to a signed
rational, or `none`. -/
def clean_amount (s : String) : Option ℚ :=
  if (trimL s.data).isEmpty then none
  else
    let r := cleanedRemainder s
    if r.isEmpty then none
    else
      match parseDecQ r with
      | some q => some (if parenNeg (stage1 s) || minusNeg (afterParen (stage1 s)) then -q else q)
      | none => none

end PDFParser

/-! ## Date Normalizer support: `datetime.strptime` for the formats used

CPython's `_strptime` compiles each directive to a regex fragment
(`%d` ↦ `3[01]|[12]\d|0[1-9]|[1-9]`, `%m` ↦ `1[0-2]|0[1-9]|[1-9]`,
`%Y` ↦ `\d\d\d\d`, `%y` ↦ `\d\d`, month names case-insensitively, runs of
whitespace in the format ↦ `\s+`), matches the whole pattern from the start
of the input with backtracking, requires the match to consume the entire
input, then builds a (validated) `datetime`.  `itemMatches` lists each
directive's candidate parses in the regex's alternation order. -/

structure DateParts where
  pd : Option Nat := none
  pm : Option Nat := none
  py : Option Nat := none

inductive FmtItem where
  | dD : FmtItem
  | mM : FmtItem
  | yY4 : FmtItem
  | yY2 : FmtItem
  | monAb : FmtItem
  | monFull : FmtItem
  | lit : Char → FmtItem
  | sp : FmtItem

def digitVal (c : Char) : Nat := c.toNat - 48

/-- Alternatives of `3[01]|[12]\d|0[1-9]|[1-9]`, in alternation order. -/
def matchDay (s : List Char) : List (Nat × List Char) :=
  (match s with
   | '3' :: c :: r => if c = '0' || c = '1' then [(30 + digitVal c, r)] else []
   | _ => []) ++
  (match s with
   | a :: b :: r => if (a = '1' || a = '2') && b.isDigit then [(10 * digitVal a + digitVal b, r)] else []
   | _ => []) ++
  (match s with
   | '0' :: b :: r => if '1' ≤ b && b ≤ '9' then [(digitVal b, r)] else []
   | _ => []) ++
  (match s with
   | a :: r => if '1' ≤ a && a ≤ '9' then [(digitVal a, r)] else []
   | _ => [])

/-- Alternatives of `1[0-2]|0[1-9]|[1-9]`, in alternation order. -/
def matchMonth (s : List Char) : List (Nat × List Char) :=
  (match s with
   | '1' :: b :: r => if b = '0' || b = '1' || b = '2' then [(10 + digitVal b, r)] else []
   | _ => []) ++
  (match s with
   | '0' :: b :: r => if '1' ≤ b && b ≤ '9' then [(digitVal b, r)] else []
   | _ => []) ++
  (match s with
   | a :: r => if '1' ≤ a && a ≤ '9' then [(digitVal a, r)] else []
   | _ => [])

/-- Source: `\d\d\d\d`. -/
def matchY4 (s : List Char) : List (Nat × List Char) :=
  match s with
  | a :: b :: c :: d :: r =>
    if a.isDigit && b.isDigit && c.isDigit && d.isDigit then
      [(1000 * digitVal a + 100 * digitVal b + 10 * digitVal c + digitVal d, r)]
    else []
  | _ => []

/-- Source: `\d\d`, then `_strptime`'s century rule: `00-68 ↦ 20xx`, `69-99 ↦ 19xx`. -/
def matchY2 (s : List Char) : List (Nat × List Char) :=
  match s with
  | a :: b :: r =>
    if a.isDigit && b.isDigit then
      let v := 10 * digitVal a + digitVal b
      [(if v ≤ 68 then 2000 + v else 1900 + v, r)]
    else []
  | _ => []

def monthAbbrevs : List String :=
  ["jan", "feb", "mar", "apr", "may", "jun", "jul", "aug", "sep", "oct", "nov", "dec"]

def monthFulls : List String :=
  ["january", "february", "march", "april", "may", "june", "july", "august",
   "september", "october", "november", "december"]

/-- Match one month name from `names` (1-based value), case-insensitively. -/
def matchMonName (names : List String) (s : List Char) : List (Nat × List Char) :=
  (names.enum.filterMap (fun p =>
    if p.2.data.isPrefixOf (lowerL s) then some (p.1 + 1, s.drop p.2.length) else none))

/-- Candidate parses of one directive against the input, in the order the
compiled regex's backtracking would try them. -/
def itemMatches : FmtItem → List Char → List ((DateParts → DateParts) × List Char)
  | .dD, s => (matchDay s).map (fun vr => (fun p => { p with pd := some vr.1 }, vr.2))
  | .mM, s => (matchMonth s).map (fun vr => (fun p => { p with pm := some vr.1 }, vr.2))
  | .yY4, s => (matchY4 s).map (fun vr => (fun p => { p with py := some vr.1 }, vr.2))
  | .yY2, s => (matchY2 s).map (fun vr => (fun p => { p with py := some vr.1 }, vr.2))
  | .monAb, s => (matchMonName monthAbbrevs s).map (fun vr => (fun p => { p with pm := some vr.1 }, vr.2))
  | .monFull, s => (matchMonName monthFulls s).map (fun vr => (fun p => { p with pm := some vr.1 }, vr.2))
  | .lit c, s =>
    match s with
    | a :: r => if a.toLower = c.toLower then [(id, r)] else []
    | [] => []
  | .sp, s =>
    let k := (s.takeWhile pyWs).length
    ((List.range k).map (fun j => (id, s.drop (k - j))))

/-- All backtracking parses of a whole format against the input, each with the
unconsumed remainder, in backtracking order. -/
def runFmt : List FmtItem → DateParts × List Char → List (DateParts × List Char)
  | [], pr => [pr]
  | it :: rest, pr =>
    (itemMatches it pr.2).flatMap (fun ur => runFmt rest (ur.1 pr.1, ur.2))

def isLeap (y : Nat) : Bool := y % 4 = 0 && (y % 100 ≠ 0 || y % 400 = 0)

def daysInMonth (y m : Nat) : Nat :=
  if m = 2 then (if isLeap y then 29 else 28)
  else if m = 4 || m = 6 || m = 9 || m = 11 then 30 else 31

structure DateYMD where
  dd : Nat
  mm : Nat
  yy : Nat
deriving DecidableEq

/-- The `datetime(...)` constructor's validation of the captured fields. -/
def validate (p : DateParts) : Option DateYMD :=
  match p.pd, p.pm, p.py with
  | some d, some m, some y =>
    if 1 ≤ y && y ≤ 9999 && 1 ≤ m && m ≤ 12 && 1 ≤ d && d ≤ daysInMonth y m then
      some ⟨d, m, y⟩
    else none
  | _, _, _ => none

/-- Source: `datetime.strptime(s, fmt)`: take the regex's first (backtracking-order)
match, require it to consume the whole input, and validate the date. -/
def strptime (f : List FmtItem) (s : List Char) : Option DateYMD :=
  match (runFmt f ({}, s)).head? with
  | some (p, rest) => if rest.isEmpty then validate p else none
  | none => none

def pad2 (n : Nat) : String := if n < 10 then "0" ++ toString n else toString n

def pad4 (n : Nat) : String :=
  if n < 10 then "000" ++ toString n
  else if n < 100 then "00" ++ toString n
  else if n < 1000 then "0" ++ toString n
  else toString n

/-- Source: `dt.strftime('%Y-%m-%d')`. -/
def isoStr (d : DateYMD) : String := pad4 d.yy ++ "-" ++ pad2 d.mm ++ "-" ++ pad2 d.dd

/-- The year plausibility guard `2000 <= dt.year <= datetime.now().year + 1`,
with the current year `cy` as an explicit parameter. -/
def yearOK (cy y : Nat) : Bool := decide (2000 ≤ y ∧ y ≤ cy + 1)

/-- Helper to build formats: `%d` etc. are transliterated one directive at a
time; `fmtOf "%d/%m/%Y"`-style tables are written out explicitly below. -/
def fmt_dmY (sep : Char) : List FmtItem := [.dD, .lit sep, .mM, .lit sep, .yY4]
def fmt_Ymd (sep : Char) : List FmtItem := [.yY4, .lit sep, .mM, .lit sep, .dD]
def fmt_mdy2 (sep : Char) : List FmtItem := [.mM, .lit sep, .dD, .lit sep, .yY2]
def fmt_d_b_Y : List FmtItem := [.dD, .sp, .monAb, .sp, .yY4]
def fmt_d_B_Y : List FmtItem := [.dD, .sp, .monFull, .sp, .yY4]
def fmt_b_d_Y : List FmtItem := [.monAb, .sp, .dD, .lit ',', .sp, .yY4]
def fmt_B_d_Y : List FmtItem := [.monFull, .sp, .dD, .lit ',', .sp, .yY4]
def fmt_d_b_Y_dash : List FmtItem := [.dD, .lit '-', .monAb, .lit '-', .yY4]
def fmt_d_B_Y_dash : List FmtItem := [.dD, .lit '-', .monFull, .lit '-', .yY4]

namespace PDFParser

/-- The format list of `PDFParser.parse_date` (`main.py` 384-390), in order. -/
def date_formats : List (List FmtItem) :=
  [fmt_dmY '/', fmt_dmY '-', fmt_dmY '.',
   fmt_Ymd '/', fmt_Ymd '-', fmt_Ymd '.',
   fmt_d_b_Y, fmt_d_B_Y, fmt_d_b_Y_dash, fmt_d_B_Y_dash,
   fmt_b_d_Y, fmt_B_d_Y,
   fmt_mdy2 '/', fmt_mdy2 '-']

/-- One iteration of the format loop: `datetime.strptime(date_str.strip(), fmt)`
followed by the year guard and `dt.strftime('%Y-%m-%d')`. -/
def tryFmt (cy : Nat) (s : List Char) (f : List FmtItem) : Option String :=
  (strptime f s).bind (fun dt => if yearOK cy dt.yy then some (isoStr dt) else none)

/-- Source: `PDFParser.parse_date` (`main.py` 379-400). -/
def parse_date (cy : Nat) (s : String) : Option String :=
  if s = "" then none
  else date_formats.findSome? (tryFmt cy (trimL s.data))

/-- Source: `PDFParser.identify_transaction_type`'s credit keyword list
(`main.py` 406; note the source spells `'recieved'`). -/
def credit_indicators : List String :=
  ["credit", "deposit", "sal", "interest", "refund", "cr", "recieved"]

/-- Source: `PDFParser.identify_transaction_type`'s debit keyword list (`main.py` 407). -/
def debit_indicators : List String :=
  ["debit", "withdrawal", "payment", "charge", "fee", "dr", "paid"]

/-- Source: `' '.join(str(cell).lower() for cell in row_data)`. -/
def row_text (row : List String) : List Char :=
  (" ".intercalate (row.map (fun c => String.mk (lowerL c.data)))).data

/-- Source: `PDFParser.identify_transaction_type` (`main.py` 402-416). -/
def identify_transaction_type (row_data : List String) (amount : ℚ) : TType :=
  if credit_indicators.any (fun k => listContains (row_text row_data) k.data) then .credit
  else if debit_indicators.any (fun k => listContains (row_text row_data) k.data) then .debit
  else if 0 ≤ amount then .credit else .debit

/-- The six column indices of `process_table_data`, with the source's `-1`
sentinel for "not assigned". -/
structure ColIdx where
  date_col_idx : Int
  desc_col_idx : Int
  credit_col_idx : Int
  debit_col_idx : Int
  amount_col_idx : Int
  balance_col_idx : Int
deriving DecidableEq

def initCol : ColIdx := ⟨-1, -1, -1, -1, -1, -1⟩

/-- Source: `'date' in h_lower or 'trans date' in h_lower`. -/
def kwDate (hl : List Char) : Bool := containsS hl "date" || containsS hl "trans date"

/-- Source: `'description' in h_lower or 'particulars' in h_lower or 'details' in h_lower`. -/
def kwDesc (hl : List Char) : Bool :=
  containsS hl "description" || containsS hl "particulars" || containsS hl "details"

/-- Source: `'credit' in h_lower or 'deposit' in h_lower`. -/
def kwCredit (hl : List Char) : Bool := containsS hl "credit" || containsS hl "deposit"

/-- Source: `'debit' in h_lower or 'withdrawal' in h_lower`. -/
def kwDebit (hl : List Char) : Bool := containsS hl "debit" || containsS hl "withdrawal"

/-- Source: `'amount' in h_lower`. -/
def kwAmount (hl : List Char) : Bool := containsS hl "amount"

/-- Source: `'balance' in h_lower or 'bal' in h_lower`. -/
def kwBal (hl : List Char) : Bool := containsS hl "balance" || containsS hl "bal"

/-- The body of the header loop of `process_table_data` (`main.py` 477-490)
for one header cell at index `i`. -/
def colStep (i : Int) (cell : String) (m : ColIdx) : ColIdx :=
  let hl := lowerL cell.data
  if kwDate hl then { m with date_col_idx := i }
  else if kwDesc hl then { m with desc_col_idx := i }
  else if kwCredit hl then { m with credit_col_idx := i }
  else if kwDebit hl then { m with debit_col_idx := i }
  else if kwAmount hl && m.amount_col_idx == -1 then { m with amount_col_idx := i }
  else if kwBal hl then { m with balance_col_idx := i }
  else m

def mapColumnsAux (i : Nat) (m : ColIdx) : List String → ColIdx
  | [] => m
  | c :: t => mapColumnsAux (i + 1) (colStep (i : Int) c m) t

/-- The header loop `for i, h in enumerate(header): ...` of
`process_table_data`. -/
def mapColumns (header : List String) : ColIdx := mapColumnsAux 0 initCol header

/-- The table-rejection test of `process_table_data` (`main.py` 493). -/
def crucialMissing (m : ColIdx) : Bool :=
  m.date_col_idx == -1 || m.desc_col_idx == -1 ||
    (m.credit_col_idx == -1 && m.debit_col_idx == -1 && m.amount_col_idx == -1)

/-- Source: `max(date_col_idx, desc_col_idx, credit_col_idx, debit_col_idx,
amount_col_idx, balance_col_idx)` (`main.py` 498). -/
def maxIdx (m : ColIdx) : Int :=
  max m.date_col_idx (max m.desc_col_idx (max m.credit_col_idx
    (max m.debit_col_idx (max m.amount_col_idx m.balance_col_idx))))

/-- Source: `row[i]` for a guarded non-negative index. -/
def getCell (row : List String) (i : Int) : String := row.getD i.toNat ""

/-- Amount/type resolution of `process_table_data` (`main.py` 508-522):
credit column first, then debit column, then the generic amount column with
keyword/sign classification. -/
def resolveAmountType (m : ColIdx) (row : List String) : Option (ℚ × TType) :=
  if m.credit_col_idx != -1 && (clean_amount (getCell row m.credit_col_idx)).isSome then
    (clean_amount (getCell row m.credit_col_idx)).map (fun v => (v, .credit))
  else if m.debit_col_idx != -1 && (clean_amount (getCell row m.debit_col_idx)).isSome then
    (clean_amount (getCell row m.debit_col_idx)).map (fun v => (v, .debit))
  else if m.amount_col_idx != -1 && (clean_amount (getCell row m.amount_col_idx)).isSome then
    (clean_amount (getCell row m.amount_col_idx)).map
      (fun v => (v, identify_transaction_type row v))
  else none

/-- The body of the row loop of `process_table_data` (`main.py` 497-544) for
one data row; `none` models `continue`. -/
def processRow (cy : Nat) (m : ColIdx) (row : List String) : Option Transaction :=
  if row.isEmpty || decide ((row.length : Int) ≤ maxIdx m) then none
  else
    let date_str : Option String :=
      if m.date_col_idx != -1 then some (String.mk (trimL (getCell row m.date_col_idx).data))
      else none
    let description_str : String :=
      if m.desc_col_idx != -1 then String.mk (trimL (getCell row m.desc_col_idx).data) else ""
    match date_str.bind (parse_date cy) with
    | none => none
    | some parsed_date =>
      match resolveAmountType m row with
      | none => none
      | some (amount_val, transaction_type) =>
        let balance_val : Option ℚ :=
          if m.balance_col_idx != -1 then
            clean_amount (String.mk (trimL (getCell row m.balance_col_idx).data))
          else none
        if amount_val = 0 then none
        else some ⟨parsed_date, description_str, |amount_val|, balance_val, transaction_type, none⟩

/-- One iteration of the table loop of `process_table_data` (`main.py`
465-546): zero transactions if the header misses crucial columns, otherwise
the surviving rows. -/
def processTable (cy : Nat) (table : List (List String)) : List Transaction :=
  let m := mapColumns (table.headD [])
  if crucialMissing m then []
  else (table.drop 1).filterMap (processRow cy m)

/-- Source: `PDFParser.process_table_data` (`main.py` 462-546). -/
def process_table_data (cy : Nat) (tables : List (List (List String))) : List Transaction :=
  (tables.map (processTable cy)).flatten

/-- Source: `PDFParser.calculate_summary` (`main.py` 548-565). -/
def calculate_summary (transactions : List Transaction) (account_info : AccountInfo) : Summary :=
  let total_credits :=
    ((transactions.filter (fun t => t.transaction_type == TType.credit)).map Transaction.amount).sum
  let total_debits :=
    ((transactions.filter (fun t => t.transaction_type == TType.debit)).map Transaction.amount).sum
  ⟨round2 total_credits, round2 total_debits, transactions.length,
    account_info.opening_balance, account_info.closing_balance⟩

end PDFParser

/-! ## A small backtracking regex engine

`runRE s fuel re pos` enumerates the ways `re` can match at position `pos` of
`s`, as pairs (end position, recorded span of the single capture group), in
Python's backtracking order: alternatives left first, `*`/`?`/`{m,n}`
greedily longest first.  `fuel` only bounds recursion depth; `reFuel` below
is always sufficient for these patterns (every starred sub-pattern consumes
at least one character per iteration, as `runRE` enforces). -/

inductive RE where
  | eps : RE
  | cls : (Char → Bool) → RE
  | seq : RE → RE → RE
  | alt : RE → RE → RE
  | star : RE → RE
  | opt : RE → RE
  | grp : RE → RE
  | wordB : RE
  | look : (List Char → Bool) → RE

def reSize : RE → Nat
  | .eps => 1
  | .cls _ => 1
  | .seq a b => reSize a + reSize b + 1
  | .alt a b => reSize a + reSize b + 1
  | .star r => reSize r + 1
  | .opt r => reSize r + 1
  | .grp r => reSize r + 1
  | .wordB => 1
  | .look _ => 1

/-- Python's `\w` (ASCII part, which is all our inputs use). -/
def isWordChar (c : Char) : Bool := c.isAlphanum || c = '_'

/-- Word boundary `\b` at position `pos` of `s`. -/
def isBoundary (s : List Char) (pos : Nat) : Bool :=
  let left := if pos = 0 then false else
    match s.get? (pos - 1) with
    | some c => isWordChar c
    | none => false
  let right :=
    match s.get? pos with
    | some c => isWordChar c
    | none => false
  left != right

def runRE (s : List Char) : Nat → RE → Nat → List (Nat × Option (Nat × Nat))
  | 0, _, _ => []
  | fuel + 1, re, pos =>
    match re with
    | .eps => [(pos, none)]
    | .cls p =>
      match s.get? pos with
      | some c => if p c then [(pos + 1, none)] else []
      | none => []
    | .seq a b =>
      (runRE s fuel a pos).flatMap
        (fun r1 => (runRE s fuel b r1.1).map (fun r2 => (r2.1, r1.2 <|> r2.2)))
    | .alt a b => runRE s fuel a pos ++ runRE s fuel b pos
    | .star r =>
      ((runRE s fuel r pos).filter (fun r1 => pos < r1.1)).flatMap
        (fun r1 => (runRE s fuel (.star r) r1.1).map (fun r2 => (r2.1, r1.2 <|> r2.2)))
        ++ [(pos, none)]
    | .opt r => runRE s fuel r pos ++ [(pos, none)]
    | .grp r => (runRE s fuel r pos).map (fun r1 => (r1.1, some (pos, r1.1)))
    | .wordB => if isBoundary s pos then [(pos, none)] else []
    | .look p => if p (s.drop pos) then [(pos, none)] else []

def reFuel (re : RE) (s : List Char) : Nat := (reSize re + 2) * (s.length + 2)

/-- Source: `re.findall(pattern, s)` for a pattern with exactly one capture group:
scan left to right, take the first (backtracking-order) match at each
position, record the group, resume at the match's end. -/
def findallAux (re : RE) (s : List Char) : Nat → Nat → List (List Char)
  | _, 0 => []
  | pos, fuel + 1 =>
    if pos ≤ s.length then
      match (runRE s (reFuel re s) re pos).head? with
      | some (endP, g) =>
        let piece :=
          match g with
          | some ab => (s.drop ab.1).take (ab.2 - ab.1)
          | none => (s.drop pos).take (endP - pos)
        piece :: findallAux re s (if pos < endP then endP else pos + 1) fuel
      | none => findallAux re s (pos + 1) fuel
    else []

def findall (re : RE) (s : List Char) : List (List Char) := findallAux re s 0 (s.length + 2)

/-- Source: `re.match(pattern, s)` truthiness: some match starting at position 0. -/
def reMatches (re : RE) (s : List Char) : Bool :=
  !(runRE s (reFuel re s) re 0).isEmpty

/-- Literal string as a regex. -/
def reStr (k : String) : RE :=
  k.data.foldr (fun c acc => .seq (.cls (fun x => x = c)) acc) .eps

def chrRE (c : Char) : RE := .cls (fun x => x = c)

/-- Ordered alternation of several regexes (left alternative first). -/
def altOf : List RE → RE
  | [] => .cls (fun _ => false)
  | [r] => r
  | r :: rest => .alt r (altOf rest)

def altStrs (ks : List String) : RE := altOf (ks.map reStr)

/-- Greedy `r{n}`. -/
def repExact : Nat → RE → RE
  | 0, _ => .eps
  | n + 1, r => .seq r (repExact n r)

/-- Greedy `r{1,hi}` written as nested options preferring to consume. -/
def optChain : Nat → RE → RE
  | 0, _ => .eps
  | n + 1, r => .opt (.seq r (optChain n r))

/-- Greedy `r{lo,hi}`. -/
def repRange (lo hi : Nat) (r : RE) : RE := .seq (repExact lo r) (optChain (hi - lo) r)

/-- Greedy `r+`. -/
def plusRE (r : RE) : RE := .seq r (.star r)

/-- Greedy `r{3,}`. -/
def rep3plus (r : RE) : RE := .seq r (.seq r (.seq r (.star r)))

def dC : RE := .cls Char.isDigit
def wsC : RE := .cls pyWs
def azC : RE := .cls (fun c => 'a' ≤ c && c ≤ 'z')

/-! ## Field Recognizer: `ReceiptParser` (`main.py` 57-244) -/

namespace ReceiptParser

/-- The numeric capture group shared by the amount patterns:
`(\d{1,3}(?:,\d{3})*(?:\.\d{2})?|\d+(?:\.\d{2})?)`. -/
def numG : RE :=
  .grp (.alt
    (.seq (repRange 1 3 dC)
      (.seq (.star (.seq (chrRE ',') (repExact 3 dC)))
        (.opt (.seq (chrRE '.') (repExact 2 dC)))))
    (.seq (plusRE dC) (.opt (.seq (chrRE '.') (repExact 2 dC)))))

def isCurrency3 (c : Char) : Bool := c = '$' || c = '₹' || c = '€'

/-- Source: `(?:total|amount|sum|subtotal|grand total|bill)[\s:]*[$₹€]?\s*(...)`. -/
def amtP1 : RE :=
  .seq (altStrs ["total", "amount", "sum", "subtotal", "grand total", "bill"])
    (.seq (.star (.cls (fun c => pyWs c || c = ':')))
      (.seq (.opt (.cls isCurrency3)) (.seq (.star wsC) numG)))

/-- Source: `[$₹€]\s*(...)`. -/
def amtP2 : RE := .seq (.cls isCurrency3) (.seq (.star wsC) numG)

/-- Source: `(...)\s*(?:total|amount|sum|subtotal|grand total)`. -/
def amtP3 : RE :=
  .seq numG (.seq (.star wsC) (altStrs ["total", "amount", "sum", "subtotal", "grand total"]))

/-- Source: `\b(?:rs\.?|inr|eur)\s*(...)`. -/
def amtP4 : RE :=
  .seq .wordB
    (.seq (altOf [.seq (reStr "rs") (.opt (chrRE '.')), reStr "inr", reStr "eur"])
      (.seq (.star wsC) numG))

/-- The lookahead `(?=.*(?:total|amount|paid|balance|net))`: `.` does not
cross a newline, so some keyword must occur in the rest of the current line. -/
def look5 (rest : List Char) : Bool :=
  containsAnyL (rest.takeWhile (fun c => c ≠ '\n')) ["total", "amount", "paid", "balance", "net"]

/-- Source: `\b(...)\b(?=.*(?:total|amount|paid|balance|net))`. -/
def amtP5 : RE := .seq .wordB (.seq numG (.seq .wordB (.look look5)))

/-- Source: `\b(\d+\.\d{2})\b`. -/
def amtP6 : RE :=
  .seq .wordB (.seq (.grp (.seq (plusRE dC) (.seq (chrRE '.') (repExact 2 dC)))) .wordB)

/-- Source: `\b(\d+)\b`. -/
def amtP7 : RE := .seq .wordB (.seq (.grp (plusRE dC)) .wordB)

/-- The pattern list of `ReceiptParser.parse_amount` (`main.py` 97-105), in order. -/
def amount_patterns : List RE := [amtP1, amtP2, amtP3, amtP4, amtP5, amtP6, amtP7]

/-- Source: `ReceiptParser.parse_amount` (`main.py` 93-124): collect all pattern
matches (comma-stripped, parsed, filtered to `[0.01, 100000.00]`) and return
the maximum. -/
def parse_amount (text : String) : Option ℚ :=
  let low := lowerL text.data
  let amounts := amount_patterns.flatMap (fun p =>
    (findall p low).filterMap (fun m =>
      match parseDecQ (m.filter (fun c => c ≠ ',')) with
      | some a => if 1/100 ≤ a ∧ a ≤ 100000 then some a else none
      | none => none))
  match amounts with
  | [] => none
  | x :: xs => some (xs.foldl max x)

def sepC : RE := .cls (fun c => c = '-' || c = '/' || c = '.')

def monAlt : RE := altStrs monthAbbrevs

/-- Source: `(\d{1,2}[/.-]\d{1,2}[/.-]\d{2,4})`. -/
def dateP1 : RE :=
  .grp (.seq (repRange 1 2 dC) (.seq sepC (.seq (repRange 1 2 dC) (.seq sepC (repRange 2 4 dC)))))

/-- Source: `(\d{4}[/.-]\d{1,2}[/.-]\d{1,2})`. -/
def dateP2 : RE :=
  .grp (.seq (repExact 4 dC) (.seq sepC (.seq (repRange 1 2 dC) (.seq sepC (repRange 1 2 dC)))))

/-- Source: `(\d{1,2}\s+(?:jan|...|dec)[a-z]*\s+\d{2,4})`. -/
def dateP3 : RE :=
  .grp (.seq (repRange 1 2 dC)
    (.seq (plusRE wsC) (.seq monAlt (.seq (.star azC) (.seq (plusRE wsC) (repRange 2 4 dC))))))

/-- Source: `((?:jan|...|dec)[a-z]*\s+\d{1,2},?\s+\d{2,4})`. -/
def dateP4 : RE :=
  .grp (.seq monAlt (.seq (.star azC)
    (.seq (plusRE wsC) (.seq (repRange 1 2 dC) (.seq (.opt (chrRE ','))
      (.seq (plusRE wsC) (repRange 2 4 dC)))))))

/-- Source: `(\d{1,2}-(?:jan|...|dec)[a-z]*-\d{2,4})`. -/
def dateP5 : RE :=
  .grp (.seq (repRange 1 2 dC)
    (.seq (chrRE '-') (.seq monAlt (.seq (.star azC) (.seq (chrRE '-') (repRange 2 4 dC))))))

/-- The pattern list of `ReceiptParser.parse_date` (`main.py` 130-136), in order. -/
def date_patterns : List RE := [dateP1, dateP2, dateP3, dateP4, dateP5]

/-- The format list of `ReceiptParser.parse_date` (`main.py` 143-150), in order
(it differs from `PDFParser.date_formats` in the position of `%b %d, %Y`). -/
def date_formats : List (List FmtItem) :=
  [fmt_dmY '/', fmt_dmY '-', fmt_dmY '.',
   fmt_Ymd '/', fmt_Ymd '-', fmt_Ymd '.',
   fmt_d_b_Y, fmt_d_B_Y,
   fmt_b_d_Y, fmt_B_d_Y,
   fmt_d_b_Y_dash, fmt_d_B_Y_dash,
   fmt_mdy2 '/', fmt_mdy2 '-']

/-- The successfully `strptime`-parsed dates of `ReceiptParser.parse_date`'s
triple loop (pattern, regex match, format), in loop order.  The source's
early `return` on the first candidate whose year passes the guard is
`findSome?` over this flattened sequence (a candidate whose year fails the
guard just falls through to the next format/match/pattern). -/
def dateCandidates (text : String) : List DateYMD :=
  let low := lowerL text.data
  date_patterns.flatMap (fun p =>
    (findall p low).flatMap (fun m => date_formats.filterMap (fun f => strptime f m)))

/-- Source: `ReceiptParser.parse_date` (`main.py` 126-160). -/
def parse_date (cy : Nat) (text : String) : Option String :=
  (dateCandidates text).findSome?
    (fun dt => if yearOK cy dt.yy then some (isoStr dt) else none)

/-- Source: `vendor_keywords` (`main.py` 168). -/
def vendor_keywords : List String :=
  ["store", "shop", "mart", "restaurant", "cafe", "company", "ltd", "inc", "corp", "pvt",
   "co", "supermarket"]

/-- Source: `re.search(r'tel|phone|fax|gstin|vat|invoice|bill|receipt|date|time', line.lower())`. -/
def contact_keywords : List String :=
  ["tel", "phone", "fax", "gstin", "vat", "invoice", "bill", "receipt", "date", "time"]

/-- Source: `re.search(r'\d{4}', line)` truthiness: four consecutive digits occur. -/
def startsWith3Digits (l : List Char) : Bool :=
  match l with
  | a :: b :: c :: _ => a.isDigit && b.isDigit && c.isDigit
  | _ => false

def has4Digits : List Char → Bool
  | [] => false
  | c :: rest => (c.isDigit && startsWith3Digits rest) || has4Digits rest

/-- Source: `$` with no MULTILINE flag: end of string, or just before a final newline. -/
def endAnchor : RE := .look (fun rest => rest.isEmpty || rest == ['\n'])

/-- Source: `^[A-Z][a-zA-Z\s&.-]{3,}(?:(?:\s(?:ltd|inc|pvt|corp|co))\.?)?$`
(`main.py` 179), anchored by `re.match`. -/
def vendorShape : RE :=
  .seq (.cls (fun c => 'A' ≤ c && c ≤ 'Z'))
    (.seq (rep3plus (.cls (fun c =>
        ('a' ≤ c && c ≤ 'z') || ('A' ≤ c && c ≤ 'Z') || pyWs c || c = '&' || c = '.' || c = '-')))
      (.seq (.opt (.seq (.seq wsC (altStrs ["ltd", "inc", "pvt", "corp", "co"]))
          (.opt (chrRE '.'))))
        endAnchor))

/-- Source: `re.sub(r'[\(\)\*#]', '', line)`. -/
def isNoise (c : Char) : Bool := c = '(' || c = ')' || c = '*' || c = '#'

/-- The body of the line loop of `ReceiptParser.parse_vendor` (`main.py`
171-181); `none` models falling through to the next line. -/
def vendorLine (line0 : List Char) : Option String :=
  let line := trimL line0
  if decide (5 < line.length) && !(has4Digits line)
      && !(containsAnyL (lowerL line) contact_keywords) then
    if vendor_keywords.any (fun k => listContains (lowerL line) k.data)
        || reMatches vendorShape line then
      some (String.mk ((trimL (line.filter (fun c => !(isNoise c)))).take 100))
    else none
  else none

/-- Source: `ReceiptParser.parse_vendor` (`main.py` 162-183). -/
def parse_vendor (text : String) : String :=
  let lines := splitNl (trimL text.data)
  match (lines.take 8).findSome? vendorLine with
  | some v => v
  | none => "Unknown Vendor"

/-- The vendor test of `calculate_confidence`:
`vendor is not None and vendor != "Unknown Vendor" and len(vendor) > 3`. -/
def vendorQualifies : Option String → Bool
  | none => false
  | some v => v != "Unknown Vendor" && decide (3 < v.length)

/-- Source: `ReceiptParser.calculate_confidence` (`main.py` 231-244). -/
def calculate_confidence (amount : Option ℚ) (date : Option String) (vendor : Option String) : ℚ :=
  let score : ℚ :=
    (if amount.isSome then (0.4 : ℚ) else 0) +
    ((if date.isSome then (0.3 : ℚ) else 0) +
     (if vendorQualifies vendor then (0.3 : ℚ) else 0))
  round2 (score * 100)

end ReceiptParser

/-! ## Specification-side descriptions of the column mapper

Independent per-role characterisations of `mapColumns`, written without the
single stateful pass: which cell-level condition lets a cell take each role
(the `if`/`elif` precedence), and which matching column each role ends up on
(`lastIdxFrom` / `firstIdxFrom`).  These are compared with `mapColumns`
in the theorems below. -/

namespace PDFParser

/-- A cell takes the date role iff it matches the date keywords. -/
def hitDate (c : String) : Bool := kwDate (lowerL c.data)

/-- A cell takes the description role iff it fails the date test and matches
the description keywords. -/
def hitDesc (c : String) : Bool :=
  !kwDate (lowerL c.data) && kwDesc (lowerL c.data)

def hitCredit (c : String) : Bool :=
  !kwDate (lowerL c.data) && !kwDesc (lowerL c.data) && kwCredit (lowerL c.data)

def hitDebit (c : String) : Bool :=
  !kwDate (lowerL c.data) && !kwDesc (lowerL c.data) && !kwCredit (lowerL c.data) &&
    kwDebit (lowerL c.data)

def hitAmount (c : String) : Bool :=
  !kwDate (lowerL c.data) && !kwDesc (lowerL c.data) && !kwCredit (lowerL c.data) &&
    !kwDebit (lowerL c.data) && kwAmount (lowerL c.data)

/-- A cell reaches the balance test iff the five earlier branches fail; the
amount branch fails either without the amount keyword or when a generic
amount column was already taken before (`taken`). -/
def reachesBal (taken : Bool) (c : String) : Bool :=
  !kwDate (lowerL c.data) && !kwDesc (lowerL c.data) && !kwCredit (lowerL c.data) &&
    !kwDebit (lowerL c.data) && !(kwAmount (lowerL c.data) && !taken) && kwBal (lowerL c.data)

/-- Index (counting from `i`) of the last cell satisfying `p`, else `-1`. -/
def lastIdxFrom (p : String → Bool) (i : Nat) : List String → Int
  | [] => -1
  | c :: t =>
    let r := lastIdxFrom p (i + 1) t
    if r != -1 then r else if p c then (i : Int) else -1

/-- Index (counting from `i`) of the first cell satisfying `p`, else `-1`. -/
def firstIdxFrom (p : String → Bool) (i : Nat) : List String → Int
  | [] => -1
  | c :: t => if p c then (i : Int) else firstIdxFrom p (i + 1) t

/-- Index of the last cell that takes the balance role, threading whether a
generic amount column has been taken before each position. -/
def balIdxFrom (taken : Bool) (i : Nat) : List String → Int
  | [] => -1
  | c :: t =>
    let r := balIdxFrom (taken || hitAmount c) (i + 1) t
    if r != -1 then r else if reachesBal taken c then (i : Int) else -1

end PDFParser

/-- The receipt text of end-to-end scenario 1 of the specification. -/
def receiptText : String := "TOTAL: $45.67  Date: 12/05/2023  SuperMart Store"

/-! ## First theorems-support lemmas for rounding -/

theorem floorQ_intCast (k : ℤ) : floorQ (k : ℚ) = k := by
  unfold floorQ
  simp [Rat.num_intCast, Rat.den_intCast, Int.fdiv_one]

theorem rhe_intCast (k : ℤ) : rhe (k : ℚ) = k := by
  unfold rhe
  rw [floorQ_intCast]
  simp only [sub_self]
  norm_num

/-- Source: `round2` is the identity on integer multiples of `1/100`. -/
theorem round2_eq_self {q : ℚ} (h : (q * 100).den = 1) : round2 q = q := by
  have hq : ((q * 100).num : ℚ) = q * 100 := by
    have := Rat.num_div_den (q * 100)
    rwa [h, Nat.cast_one, div_one] at this
  unfold round2
  rw [show q * 100 = ((q * 100).num : ℚ) from hq.symm, rhe_intCast, hq]
  field_simp

/-! ## Generic helper lemmas -/

theorem findSome?_cons_eq {α β : Type} (f : α → Option β) (a : α) (l : List α) :
    (a :: l).findSome? f = match f a with | some b => some b | none => l.findSome? f := rfl

/-! ## C5: the Summary Aggregator's invariants -/

/-- Claim C5: For every `ParsedStatement` built by the Summary Aggregator,
`total_credits` is the sum of the amounts of the credit transactions rounded
to 2 decimal places (symmetrically for `total_debits`), `transaction_count`
is the length of the transaction list, and the extracted opening/closing
balances are copied into the result unchanged. -/
theorem C5_summary_invariants (ts : List Transaction) (info : AccountInfo) :
    (PDFParser.calculate_summary ts info).total_credits =
      round2 (((ts.filter (fun t => t.transaction_type == TType.credit)).map Transaction.amount).sum) ∧
    (PDFParser.calculate_summary ts info).total_debits =
      round2 (((ts.filter (fun t => t.transaction_type == TType.debit)).map Transaction.amount).sum) ∧
    (PDFParser.calculate_summary ts info).transaction_count = ts.length ∧
    (PDFParser.calculate_summary ts info).opening_balance = info.opening_balance ∧
    (PDFParser.calculate_summary ts info).closing_balance = info.closing_balance :=
  ⟨rfl, rfl, rfl, rfl, rfl⟩

/-! ## C7: the Amount Normalizer is total -/

/-- Claim C7: `clean_amount` never raises: whenever the remainder left by the
stripping steps is empty or fails to parse as a decimal, the result is the
value `none`, not an error (totality itself is by construction: `clean_amount`
is a Lean function into `Option ℚ`). -/
theorem C7_clean_amount_none (s : String) :
    (PDFParser.cleanedRemainder s = [] ∨ parseDecQ (PDFParser.cleanedRemainder s) = none) →
    PDFParser.clean_amount s = none := by
  intro h
  have hp : parseDecQ (PDFParser.cleanedRemainder s) = none := by
    rcases h with h | h
    · rw [h]; rfl
    · exact h
  unfold PDFParser.clean_amount
  split
  · rfl
  · simp only [hp]
    split <;> rfl

/-- Witness for C7 at the concrete input `"N/A"`. -/
theorem C7_clean_amount_none_witness :
    (PDFParser.cleanedRemainder "N/A" = [] ∨ parseDecQ (PDFParser.cleanedRemainder "N/A") = none) ∧
    PDFParser.clean_amount "N/A" = none :=
  ⟨Or.inl (by decide), C7_clean_amount_none "N/A" (Or.inl (by decide))⟩

/-! ## C10: credit indicators are tested before debit indicators -/

/-- Claim C10: In the generic-amount keyword classification, credit indicators
are tested before debit indicators via substring search on the joined row
text, so a row containing both a credit indicator and a debit indicator is
classified as a credit regardless of the amount's sign. -/
theorem C10_credit_indicators_first (row : List String) (amt : ℚ) :
    (∃ k ∈ PDFParser.credit_indicators, listContains (PDFParser.row_text row) k.data = true) →
    (∃ k ∈ PDFParser.debit_indicators, listContains (PDFParser.row_text row) k.data = true) →
    PDFParser.identify_transaction_type row amt = TType.credit := by
  intro hc _
  unfold PDFParser.identify_transaction_type
  have : PDFParser.credit_indicators.any
      (fun k => listContains (PDFParser.row_text row) k.data) = true := by
    rcases hc with ⟨k, hk, hin⟩
    exact List.any_eq_true.mpr ⟨k, hk, hin⟩
  simp [this]

/-- Witness for C10: a row mentioning both "refund" and "fee", with a
negative amount, is classified as credit. -/
theorem C10_credit_indicators_first_witness :
    (∃ k ∈ PDFParser.credit_indicators,
      listContains (PDFParser.row_text ["01/01/2023", "refund of fee", "-5.00"]) k.data = true) ∧
    (∃ k ∈ PDFParser.debit_indicators,
      listContains (PDFParser.row_text ["01/01/2023", "refund of fee", "-5.00"]) k.data = true) ∧
    PDFParser.identify_transaction_type ["01/01/2023", "refund of fee", "-5.00"] (-5) = TType.credit :=
  ⟨by decide, by decide,
    C10_credit_indicators_first ["01/01/2023", "refund of fee", "-5.00"] (-5) (by decide) (by decide)⟩

/-! ## C9: the Confidence Scorer -/

/-- Claim C9: The Confidence Scorer is a pure function of the three extracted
fields, computing 40 points for a present amount, 30 for a present date and
30 for a qualifying vendor (present, not the default `"Unknown Vendor"`, and
longer than 3 characters); the result always lies in `[0, 100]` (and, being
an exact multiple of these summands, is unchanged by the final rounding to
2 decimal places). -/
theorem C9_confidence_scorer (a : Option ℚ) (d v : Option String) :
    ReceiptParser.calculate_confidence a d v =
      (if a.isSome then 40 else 0) + (if d.isSome then 30 else 0) +
        (if ReceiptParser.vendorQualifies v then 30 else 0) ∧
    (ReceiptParser.vendorQualifies v = true ↔
      ∃ sv, v = some sv ∧ sv ≠ "Unknown Vendor" ∧ 3 < sv.length) ∧
    0 ≤ ReceiptParser.calculate_confidence a d v ∧
    ReceiptParser.calculate_confidence a d v ≤ 100 := by
  refine ⟨?_, ?_, ?_, ?_⟩
  · cases a <;> cases d <;> cases hq : ReceiptParser.vendorQualifies v <;>
      simp only [ReceiptParser.calculate_confidence, hq, Option.isSome_none, Option.isSome_some] <;>
      with_unfolding_all decide
  · constructor
    · intro h
      cases v with
      | none => simp [ReceiptParser.vendorQualifies] at h
      | some sv =>
        refine ⟨sv, rfl, ?_, ?_⟩
        · have := (Bool.and_eq_true _ _).mp h
          exact bne_iff_ne.mp this.1
        · have := (Bool.and_eq_true _ _).mp h
          exact of_decide_eq_true this.2
    · rintro ⟨sv, rfl, h1, h2⟩
      simp [ReceiptParser.vendorQualifies, bne_iff_ne, h1, h2]
  · cases a <;> cases d <;> cases hq : ReceiptParser.vendorQualifies v <;>
      simp only [ReceiptParser.calculate_confidence, hq, Option.isSome_none, Option.isSome_some] <;>
      with_unfolding_all decide
  · cases a <;> cases d <;> cases hq : ReceiptParser.vendorQualifies v <;>
      simp only [ReceiptParser.calculate_confidence, hq, Option.isSome_none, Option.isSome_some] <;>
      with_unfolding_all decide

/-! ## C4: credits plus debits versus the total sum -/

theorem den_one_add {a b : ℚ} (ha : a.den = 1) (hb : b.den = 1) : (a + b).den = 1 := by
  have ha' : ((a.num : ℚ)) = a := by
    conv_rhs => rw [← Rat.num_div_den a]
    rw [ha]; simp
  have hb' : ((b.num : ℚ)) = b := by
    conv_rhs => rw [← Rat.num_div_den b]
    rw [hb]; simp
  rw [← ha', ← hb', ← Int.cast_add]
  exact Rat.den_intCast _

theorem sum_den_one {l : List ℚ} (h : ∀ q ∈ l, q.den = 1) : l.sum.den = 1 := by
  induction l with
  | nil => simp
  | cons q t ih =>
    rw [List.sum_cons]
    exact den_one_add (h q (List.mem_cons_self q t)) (ih fun x hx => h x (List.mem_cons_of_mem q hx))

/-- Source: `round2` fixes the sum of a list of exact multiples of `1/100`. -/
theorem round2_sum_self {l : List ℚ} (h : ∀ q ∈ l, (q * 100).den = 1) :
    round2 l.sum = l.sum := by
  apply round2_eq_self
  have hm : ∀ l' : List ℚ, l'.sum * 100 = (l'.map (fun q => q * 100)).sum := by
    intro l'
    induction l' with
    | nil => simp
    | cons q t ih => simp [List.sum_cons, add_mul, ih]
  rw [hm]
  apply sum_den_one
  intro q hq
  rcases List.mem_map.mp hq with ⟨x, hx, rfl⟩
  exact h x hx

/-- Credit-filtered and debit-filtered amounts partition the full sum. -/
theorem sum_credit_debit_partition (ts : List Transaction) :
    ((ts.filter (fun t => t.transaction_type == TType.credit)).map Transaction.amount).sum +
      ((ts.filter (fun t => t.transaction_type == TType.debit)).map Transaction.amount).sum =
    (ts.map Transaction.amount).sum := by
  induction ts with
  | nil => simp
  | cons t ts ih =>
    rcases h : t.transaction_type with _ | _ <;>
      simp [List.filter_cons, h, beq_iff_eq, List.sum_cons] <;> linarith [ih]

/-- Claim C4, counterexample: A single credit transaction of amount `0.001`
already violates `total_credits + total_debits = sum of amounts`: the
per-type totals are rounded to 2 decimal places, so the left side is `0`. -/
theorem C4_counterexample :
    (PDFParser.calculate_summary
        [⟨"2023-01-01", "interest", 1/1000, none, TType.credit, none⟩] ⟨none, none⟩).total_credits +
      (PDFParser.calculate_summary
        [⟨"2023-01-01", "interest", 1/1000, none, TType.credit, none⟩] ⟨none, none⟩).total_debits ≠
    ([(⟨"2023-01-01", "interest", 1/1000, none, TType.credit, none⟩ : Transaction)].map
        Transaction.amount).sum := by
  with_unfolding_all decide

/-- Claim C4, amended: For every sequence of transactions whose amounts are
exact multiples of `0.01` (so that the 2-decimal rounding of the per-type
totals is the identity), the Summary Aggregator's outputs satisfy
`total_credits + total_debits = sum of all amounts`. -/
theorem C4_sum_relation (ts : List Transaction) (info : AccountInfo)
    (h : ∀ t ∈ ts, (t.amount * 100).den = 1) :
    (PDFParser.calculate_summary ts info).total_credits +
      (PDFParser.calculate_summary ts info).total_debits =
    (ts.map Transaction.amount).sum := by
  have hA : (PDFParser.calculate_summary ts info).total_credits =
      round2 (((ts.filter (fun t => t.transaction_type == TType.credit)).map
        Transaction.amount).sum) := rfl
  have hB : (PDFParser.calculate_summary ts info).total_debits =
      round2 (((ts.filter (fun t => t.transaction_type == TType.debit)).map
        Transaction.amount).sum) := rfl
  rw [hA, hB, round2_sum_self, round2_sum_self, sum_credit_debit_partition]
  · intro q hq
    rcases List.mem_map.mp hq with ⟨t, ht, rfl⟩
    exact h t (List.mem_of_mem_filter ht)
  · intro q hq
    rcases List.mem_map.mp hq with ⟨t, ht, rfl⟩
    exact h t (List.mem_of_mem_filter ht)

/-- Witness for the amended C4 on a concrete two-transaction sequence. -/
theorem C4_sum_relation_witness :
    (∀ t ∈ [(⟨"2023-06-01", "salary", 50000, none, TType.credit, none⟩ : Transaction),
            ⟨"2023-06-02", "fee", 1/2, none, TType.debit, none⟩], (t.amount * 100).den = 1) ∧
    (PDFParser.calculate_summary
        [⟨"2023-06-01", "salary", 50000, none, TType.credit, none⟩,
         ⟨"2023-06-02", "fee", 1/2, none, TType.debit, none⟩] ⟨none, none⟩).total_credits +
      (PDFParser.calculate_summary
        [⟨"2023-06-01", "salary", 50000, none, TType.credit, none⟩,
         ⟨"2023-06-02", "fee", 1/2, none, TType.debit, none⟩] ⟨none, none⟩).total_debits =
    ([(⟨"2023-06-01", "salary", 50000, none, TType.credit, none⟩ : Transaction),
      ⟨"2023-06-02", "fee", 1/2, none, TType.debit, none⟩].map Transaction.amount).sum :=
  ⟨by with_unfolding_all decide, C4_sum_relation _ _ (by with_unfolding_all decide)⟩

/-! ## C8: tables with missing crucial columns are skipped -/

/-- Claim C8: A table whose header lacks a date role, lacks a description role,
or lacks all three of the credit/debit/generic-amount roles contributes
exactly zero transactions (and no error: the embedding is total), and the
other tables of the document are processed exactly as if it were absent. -/
theorem C8_table_rejected (cy : Nat) (pre post : List (List (List String)))
    (tbl : List (List String))
    (h : PDFParser.crucialMissing (PDFParser.mapColumns (tbl.headD [])) = true) :
    PDFParser.processTable cy tbl = [] ∧
    PDFParser.process_table_data cy (pre ++ tbl :: post) =
      PDFParser.process_table_data cy (pre ++ post) := by
  have h1 : PDFParser.processTable cy tbl = [] := by
    simp only [PDFParser.processTable]
    rw [h]
    rfl
  refine ⟨h1, ?_⟩
  unfold PDFParser.process_table_data
  simp [h1]

/-- Witness for C8: the header `[Item, Qty, Price]` matches no crucial role,
so its table is rejected while a well-formed table in the same document is
still processed. -/
theorem C8_table_rejected_witness :
    PDFParser.crucialMissing (PDFParser.mapColumns
      (([["Item", "Qty", "Price"], ["Apple", "2", "3.00"]] : List (List String)).headD [])) = true ∧
    PDFParser.processTable 2026 [["Item", "Qty", "Price"], ["Apple", "2", "3.00"]] = [] ∧
    PDFParser.process_table_data 2026
      [[["Item", "Qty", "Price"], ["Apple", "2", "3.00"]],
       [["Date", "Description", "Credit", "Debit", "Balance"],
        ["01/06/2023", "Salary Credit", "50000.00", "", "150000.00"]]] =
    PDFParser.process_table_data 2026
      [[["Date", "Description", "Credit", "Debit", "Balance"],
        ["01/06/2023", "Salary Credit", "50000.00", "", "150000.00"]]] :=
  ⟨by decide,
    (C8_table_rejected 2026 []
      [[["Date", "Description", "Credit", "Debit", "Balance"],
        ["01/06/2023", "Salary Credit", "50000.00", "", "150000.00"]]]
      [["Item", "Qty", "Price"], ["Apple", "2", "3.00"]] (by decide)).1,
    (C8_table_rejected 2026 []
      [[["Date", "Description", "Credit", "Debit", "Balance"],
        ["01/06/2023", "Salary Credit", "50000.00", "", "150000.00"]]]
      [["Item", "Qty", "Price"], ["Apple", "2", "3.00"]] (by decide)).2⟩

/-! ## C6: the Date Normalizer returns canonical dates with plausible years -/

theorem daysInMonth_le (y m : Nat) : daysInMonth y m ≤ 31 := by
  unfold daysInMonth
  split_ifs <;> omega

theorem validate_bounds {p : DateParts} {dt : DateYMD} (h : validate p = some dt) :
    1 ≤ dt.yy ∧ dt.yy ≤ 9999 ∧ 1 ≤ dt.mm ∧ dt.mm ≤ 12 ∧ 1 ≤ dt.dd ∧ dt.dd ≤ 31 := by
  obtain ⟨pd, pm, py⟩ := p
  rcases pd with _ | d
  · exact Option.noConfusion h
  rcases pm with _ | m
  · exact Option.noConfusion h
  rcases py with _ | y
  · exact Option.noConfusion h
  simp only [validate] at h
  split at h
  next hc =>
    injection h with h'
    subst h'
    simp only [Bool.and_eq_true, decide_eq_true_iff] at hc
    obtain ⟨⟨⟨⟨⟨h1, h2⟩, h3⟩, h4⟩, h5⟩, h6⟩ := hc
    exact ⟨h1, h2, h3, h4, h5, le_trans h6 (daysInMonth_le y m)⟩
  next => exact Option.noConfusion h

theorem strptime_bounds {f : List FmtItem} {s : List Char} {dt : DateYMD}
    (h : strptime f s = some dt) :
    1 ≤ dt.yy ∧ dt.yy ≤ 9999 ∧ 1 ≤ dt.mm ∧ dt.mm ≤ 12 ∧ 1 ≤ dt.dd ∧ dt.dd ≤ 31 := by
  unfold strptime at h
  split at h
  next =>
    split at h
    · exact validate_bounds h
    · exact Option.noConfusion h
  next => exact Option.noConfusion h

theorem tryFmt_shape {cy : Nat} {s : List Char} {f : List FmtItem} {v : String}
    (h : PDFParser.tryFmt cy s f = some v) :
    ∃ dt, strptime f s = some dt ∧ yearOK cy dt.yy = true ∧ v = isoStr dt := by
  unfold PDFParser.tryFmt at h
  cases hs : strptime f s with
  | none => rw [hs] at h; exact Option.noConfusion h
  | some dt =>
    rw [hs] at h
    replace h : (if yearOK cy dt.yy then some (isoStr dt) else none) = some v := h
    split at h
    next hy =>
      injection h with h'
      exact ⟨dt, rfl, by simpa using hy, h'.symm⟩
    next => exact Option.noConfusion h

theorem findSome_tryFmt_shape (cy : Nat) (l : List Char) (fs : List (List FmtItem)) :
    fs.findSome? (PDFParser.tryFmt cy l) = none ∨
    ∃ y m d, 2000 ≤ y ∧ y ≤ cy + 1 ∧ 1 ≤ m ∧ m ≤ 12 ∧ 1 ≤ d ∧ d ≤ 31 ∧
      fs.findSome? (PDFParser.tryFmt cy l) = some (isoStr ⟨d, m, y⟩) := by
  induction fs with
  | nil => left; rfl
  | cons f fs ih =>
    rw [findSome?_cons_eq]
    cases hf : PDFParser.tryFmt cy l f with
    | none => exact ih
    | some v =>
      obtain ⟨dt, hs, hy, rfl⟩ := tryFmt_shape hf
      obtain ⟨_, _, b3, b4, b5, b6⟩ := strptime_bounds hs
      have hy' : 2000 ≤ dt.yy ∧ dt.yy ≤ cy + 1 := of_decide_eq_true hy
      exact Or.inr ⟨dt.yy, dt.mm, dt.dd, hy'.1, hy'.2, b3, b4, b5, b6, rfl⟩

/-- Claim C6: For every input string, the Date Normalizer returns either no
value or a date rendered canonically as `YYYY-MM-DD` with a valid month/day
and a year in `[2000, current_year + 1]`; and, the formats being tried in a
fixed priority order (day-first first), the ambiguous input `"03/04/2023"`
deterministically resolves to April 3rd. -/
theorem C6_date_normalizer :
    (∀ (cy : Nat) (s : String),
      PDFParser.parse_date cy s = none ∨
      ∃ y m d, 2000 ≤ y ∧ y ≤ cy + 1 ∧ 1 ≤ m ∧ m ≤ 12 ∧ 1 ≤ d ∧ d ≤ 31 ∧
        PDFParser.parse_date cy s = some (isoStr ⟨d, m, y⟩)) ∧
    (∀ cy, 2022 ≤ cy → PDFParser.parse_date cy "03/04/2023" = some "2023-04-03") := by
  constructor
  · intro cy s
    unfold PDFParser.parse_date
    split
    · left; rfl
    · exact findSome_tryFmt_shape cy (trimL s.data) PDFParser.date_formats
  · intro cy hcy
    have hy : yearOK cy 2023 = true := decide_eq_true ⟨by omega, by omega⟩
    have h1 : strptime (fmt_dmY '/') (trimL "03/04/2023".data) = some ⟨3, 4, 2023⟩ := by rfl
    have h2 : PDFParser.tryFmt cy (trimL "03/04/2023".data) (fmt_dmY '/') = some "2023-04-03" := by
      unfold PDFParser.tryFmt
      rw [h1]
      show (if yearOK cy (2023 : Nat) then some (isoStr ⟨3, 4, 2023⟩) else none) = some "2023-04-03"
      rw [hy]
      rfl
    unfold PDFParser.parse_date
    rw [if_neg (by decide)]
    unfold PDFParser.date_formats
    rw [findSome?_cons_eq, h2]

/-- Witness for C6 at current year 2026. -/
theorem C6_date_normalizer_witness :
    2022 ≤ 2026 ∧ PDFParser.parse_date 2026 "03/04/2023" = some "2023-04-03" :=
  ⟨by omega, C6_date_normalizer.2 2026 (by omega)⟩

/-! ## C3: the Transaction Reconstructor's amount/type resolution -/

/-- Claim C3, counterexample: The claim's credit keyword list contains
`received`, but the source's list spells it `recieved`, so a generic-amount
row whose text contains `received` (and no other indicator) falls through to
the sign fallback: with amount `-5.00` it is classified as a debit, where the
claim requires a credit. -/
theorem C3_counterexample :
    listContains (PDFParser.row_text ["01/01/2023", "received", "-5.00"]) "received".data = true ∧
    PDFParser.process_table_data 2026
      [[["Date", "Description", "Amount"], ["01/01/2023", "received", "-5.00"]]] =
      [⟨"2023-01-01", "received", 5, none, TType.debit, none⟩] ∧
    TType.debit ≠ TType.credit := by
  refine ⟨by decide, ?_, by decide⟩
  with_unfolding_all rfl

/-- For every transaction emitted for a data row, the amount/type pair comes
from `resolveAmountType`, and the stored amount is the absolute value of the
resolved amount. -/
theorem processRow_amount_abs (cy : Nat) (m : PDFParser.ColIdx) (row : List String)
    (t : Transaction) (h : PDFParser.processRow cy m row = some t) :
    ∃ v ty, PDFParser.resolveAmountType m row = some (v, ty) ∧
      t.amount = |v| ∧ t.transaction_type = ty := by
  simp only [PDFParser.processRow] at h
  split at h
  next => exact Option.noConfusion h
  next =>
    split at h
    next => exact Option.noConfusion h
    next parsed_date heq =>
      split at h
      next => exact Option.noConfusion h
      next v ty heq2 =>
        split at h
        next => exact Option.noConfusion h
        next =>
          injection h with h'
          subst h'
          exact ⟨v, ty, heq2, rfl, rfl⟩

/-- Claim C3, amended: For every accepted data row, amount and type are
resolved with the precedence: a normalizing credit-role cell gives type
credit; else a normalizing debit-role cell gives type debit; else a
normalizing generic-amount-role cell is classified by scanning the joined row
text for the source's credit indicators (`credit`, `deposit`, `sal`,
`interest`, `refund`, `cr`, `recieved` — the source misspells `received`),
then its debit indicators, falling back to the sign of the amount
(non-negative gives credit); the stored amount is the absolute value of the
resolved amount.  In particular the header
`[Date, Description, Credit, Debit, Balance]` with row
`["01/06/2023", "Salary Credit", "50000.00", "", "150000.00"]` yields exactly
one transaction `{date 2023-06-01, amount 50000.00, type credit,
balance 150000.00}`. -/
theorem C3_reconstruction :
    (∀ cy, 2022 ≤ cy →
      PDFParser.process_table_data cy
        [[["Date", "Description", "Credit", "Debit", "Balance"],
          ["01/06/2023", "Salary Credit", "50000.00", "", "150000.00"]]] =
        [⟨"2023-06-01", "Salary Credit", 50000, some 150000, TType.credit, none⟩]) ∧
    (∀ m row v, m.credit_col_idx ≠ -1 →
      PDFParser.clean_amount (PDFParser.getCell row m.credit_col_idx) = some v →
      PDFParser.resolveAmountType m row = some (v, TType.credit)) ∧
    (∀ (m : PDFParser.ColIdx) row v,
      (m.credit_col_idx = -1 ∨ PDFParser.clean_amount (PDFParser.getCell row m.credit_col_idx) = none) →
      m.debit_col_idx ≠ -1 →
      PDFParser.clean_amount (PDFParser.getCell row m.debit_col_idx) = some v →
      PDFParser.resolveAmountType m row = some (v, TType.debit)) ∧
    (∀ (m : PDFParser.ColIdx) row v,
      (m.credit_col_idx = -1 ∨ PDFParser.clean_amount (PDFParser.getCell row m.credit_col_idx) = none) →
      (m.debit_col_idx = -1 ∨ PDFParser.clean_amount (PDFParser.getCell row m.debit_col_idx) = none) →
      m.amount_col_idx ≠ -1 →
      PDFParser.clean_amount (PDFParser.getCell row m.amount_col_idx) = some v →
      PDFParser.resolveAmountType m row = some (v, PDFParser.identify_transaction_type row v)) ∧
    (∀ row (amt : ℚ),
      ((∀ k ∈ PDFParser.credit_indicators, listContains (PDFParser.row_text row) k.data = false) →
       (∀ k ∈ PDFParser.debit_indicators, listContains (PDFParser.row_text row) k.data = false) →
        PDFParser.identify_transaction_type row amt =
          (if 0 ≤ amt then TType.credit else TType.debit)) ∧
      ((∀ k ∈ PDFParser.credit_indicators, listContains (PDFParser.row_text row) k.data = false) →
       (∃ k ∈ PDFParser.debit_indicators, listContains (PDFParser.row_text row) k.data = true) →
        PDFParser.identify_transaction_type row amt = TType.debit)) ∧
    (∀ cy m row t, PDFParser.processRow cy m row = some t →
      ∃ v ty, PDFParser.resolveAmountType m row = some (v, ty) ∧
        t.amount = |v| ∧ t.transaction_type = ty) := by
  refine ⟨?_, ?_, ?_, ?_, ?_, processRow_amount_abs⟩
  · intro cy hcy
    have hy : yearOK cy 2023 = true := decide_eq_true ⟨by omega, by omega⟩
    have h1 : strptime (fmt_dmY '/') (trimL "01/06/2023".data) = some ⟨1, 6, 2023⟩ := by rfl
    have h2 : PDFParser.tryFmt cy (trimL "01/06/2023".data) (fmt_dmY '/') = some "2023-06-01" := by
      unfold PDFParser.tryFmt
      rw [h1]
      show (if yearOK cy (2023 : Nat) then some (isoStr ⟨1, 6, 2023⟩) else none) = some "2023-06-01"
      rw [hy]
      rfl
    have hd : PDFParser.parse_date cy "01/06/2023" = some "2023-06-01" := by
      unfold PDFParser.parse_date
      rw [if_neg (by decide)]
      unfold PDFParser.date_formats
      rw [findSome?_cons_eq, h2]
    have hrow : PDFParser.processRow cy ⟨0, 1, 2, 3, -1, 4⟩
        ["01/06/2023", "Salary Credit", "50000.00", "", "150000.00"] =
        (match PDFParser.parse_date cy "01/06/2023" with
         | none => none
         | some pd =>
            some ⟨pd, "Salary Credit", 50000, some 150000, TType.credit, none⟩) := by
      with_unfolding_all rfl
    have htbl : PDFParser.processTable cy
        [["Date", "Description", "Credit", "Debit", "Balance"],
         ["01/06/2023", "Salary Credit", "50000.00", "", "150000.00"]] =
        [⟨"2023-06-01", "Salary Credit", 50000, some 150000, TType.credit, none⟩] := by
      simp only [PDFParser.processTable]
      rw [if_neg (by decide)]
      rw [show PDFParser.mapColumns
          (([["Date", "Description", "Credit", "Debit", "Balance"],
             ["01/06/2023", "Salary Credit", "50000.00", "", "150000.00"]] :
              List (List String)).headD []) = ⟨0, 1, 2, 3, -1, 4⟩ from by decide]
      show List.filterMap _ [["01/06/2023", "Salary Credit", "50000.00", "", "150000.00"]] = _
      simp only [List.filterMap_cons, List.filterMap_nil, hrow, hd]
    show ([PDFParser.processTable cy
        [["Date", "Description", "Credit", "Debit", "Balance"],
         ["01/06/2023", "Salary Credit", "50000.00", "", "150000.00"]]]).flatten = _
    rw [htbl]
    rfl
  · intro m row v hc hv
    unfold PDFParser.resolveAmountType
    rw [if_pos]
    · rw [hv]; rfl
    · rw [hv]
      simp [bne_iff_ne.mpr hc]
  · intro m row v hc hdb hv
    unfold PDFParser.resolveAmountType
    rw [if_neg, if_pos]
    · rw [hv]; rfl
    · rw [hv]
      simp [bne_iff_ne.mpr hdb]
    · rcases hc with hc | hc
      · simp [hc]
      · simp [hc]
  · intro m row v hc hdb ha hv
    unfold PDFParser.resolveAmountType
    rw [if_neg, if_neg, if_pos]
    · rw [hv]; rfl
    · rw [hv]
      simp [bne_iff_ne.mpr ha]
    · rcases hdb with h | h
      · simp [h]
      · simp [h]
    · rcases hc with h | h
      · simp [h]
      · simp [h]
  · intro row amt
    have noneOf : ∀ (ks : List String),
        (∀ k ∈ ks, listContains (PDFParser.row_text row) k.data = false) →
        ¬(ks.any (fun k => listContains (PDFParser.row_text row) k.data) = true) := by
      intro ks hks hx
      obtain ⟨k, hk, hin⟩ := List.any_eq_true.mp hx
      rw [hks k hk] at hin
      exact Bool.noConfusion hin
    constructor
    · intro hcf hdf
      unfold PDFParser.identify_transaction_type
      rw [if_neg (noneOf _ hcf), if_neg (noneOf _ hdf)]
    · intro hcf hdt
      obtain ⟨k, hk, hin⟩ := hdt
      unfold PDFParser.identify_transaction_type
      rw [if_neg (noneOf _ hcf), if_pos (List.any_eq_true.mpr ⟨k, hk, hin⟩)]

/-- Witness for the amended C3: scenario 2 evaluated at current year 2026. -/
theorem C3_reconstruction_witness :
    2022 ≤ 2026 ∧
    PDFParser.process_table_data 2026
      [[["Date", "Description", "Credit", "Debit", "Balance"],
        ["01/06/2023", "Salary Credit", "50000.00", "", "150000.00"]]] =
      [⟨"2023-06-01", "Salary Credit", 50000, some 150000, TType.credit, none⟩] :=
  ⟨by omega, C3_reconstruction.1 2026 (by omega)⟩

/-! ## C2: the Table Column Mapper -/

namespace PDFParser

theorem colStep_date (i : Int) (c : String) (m : ColIdx) :
    (colStep i c m).date_col_idx = if hitDate c then i else m.date_col_idx := by
  unfold colStep
  cases h1 : kwDate (lowerL c.data) <;>
    simp [hitDate, h1, apply_ite ColIdx.date_col_idx, ite_self]

theorem colStep_desc (i : Int) (c : String) (m : ColIdx) :
    (colStep i c m).desc_col_idx = if hitDesc c then i else m.desc_col_idx := by
  unfold colStep
  cases h1 : kwDate (lowerL c.data) <;> cases h2 : kwDesc (lowerL c.data) <;>
    simp [hitDesc, h1, h2, apply_ite ColIdx.desc_col_idx, ite_self]

theorem colStep_credit (i : Int) (c : String) (m : ColIdx) :
    (colStep i c m).credit_col_idx = if hitCredit c then i else m.credit_col_idx := by
  unfold colStep
  cases h1 : kwDate (lowerL c.data) <;> cases h2 : kwDesc (lowerL c.data) <;>
    cases h3 : kwCredit (lowerL c.data) <;>
    simp [hitCredit, h1, h2, h3, apply_ite ColIdx.credit_col_idx, ite_self]

theorem colStep_debit (i : Int) (c : String) (m : ColIdx) :
    (colStep i c m).debit_col_idx = if hitDebit c then i else m.debit_col_idx := by
  unfold colStep
  cases h1 : kwDate (lowerL c.data) <;> cases h2 : kwDesc (lowerL c.data) <;>
    cases h3 : kwCredit (lowerL c.data) <;> cases h4 : kwDebit (lowerL c.data) <;>
    simp [hitDebit, h1, h2, h3, h4, apply_ite ColIdx.debit_col_idx, ite_self]

theorem colStep_amount (i : Int) (c : String) (m : ColIdx) :
    (colStep i c m).amount_col_idx =
      if hitAmount c && (m.amount_col_idx == -1) then i else m.amount_col_idx := by
  unfold colStep
  cases h1 : kwDate (lowerL c.data) <;> cases h2 : kwDesc (lowerL c.data) <;>
    cases h3 : kwCredit (lowerL c.data) <;> cases h4 : kwDebit (lowerL c.data) <;>
    cases h5 : kwAmount (lowerL c.data) <;> by_cases hm : m.amount_col_idx = -1 <;>
    simp [hitAmount, h1, h2, h3, h4, h5, hm, beq_iff_eq,
      apply_ite ColIdx.amount_col_idx, ite_self]

theorem colStep_balance (i : Int) (c : String) (m : ColIdx) :
    (colStep i c m).balance_col_idx =
      if reachesBal (m.amount_col_idx != -1) c then i else m.balance_col_idx := by
  unfold colStep
  cases h1 : kwDate (lowerL c.data) <;> cases h2 : kwDesc (lowerL c.data) <;>
    cases h3 : kwCredit (lowerL c.data) <;> cases h4 : kwDebit (lowerL c.data) <;>
    cases h5 : kwAmount (lowerL c.data) <;> cases h6 : kwBal (lowerL c.data) <;>
    by_cases hm : m.amount_col_idx = -1 <;>
    simp [reachesBal, h1, h2, h3, h4, h5, h6, hm, beq_iff_eq, bne_iff_ne,
      apply_ite ColIdx.balance_col_idx, ite_self]

theorem colStep_amount_taken (i : Nat) (c : String) (m : ColIdx) :
    (((colStep (i : Int) c m).amount_col_idx != -1)) =
      ((m.amount_col_idx != -1) || hitAmount c) := by
  have hi : ((i : Int) != -1) = true := bne_iff_ne.mpr (by omega)
  rw [colStep_amount]
  cases hp : hitAmount c <;> cases hm : m.amount_col_idx == -1 <;>
    simp_all [bne, hi]

theorem lastIdx_step (p : String → Bool) (i : Nat) (c : String) (t : List String) (old : Int) :
    (if lastIdxFrom p (i + 1) t != -1 then lastIdxFrom p (i + 1) t
     else if p c then (i : Int) else old) =
    (if lastIdxFrom p i (c :: t) != -1 then lastIdxFrom p i (c :: t) else old) := by
  have hi : ((i : Int) != -1) = true := bne_iff_ne.mpr (by omega)
  simp only [lastIdxFrom]
  cases hr : lastIdxFrom p (i + 1) t != -1 <;> cases hp : p c <;> simp [hr, hp, hi]

theorem first_step (i : Nat) (c : String) (t : List String) (m : ColIdx) :
    (if (colStep (i : Int) c m).amount_col_idx != -1 then (colStep (i : Int) c m).amount_col_idx
     else firstIdxFrom hitAmount (i + 1) t) =
    (if m.amount_col_idx != -1 then m.amount_col_idx else firstIdxFrom hitAmount i (c :: t)) := by
  have hi : ((i : Int) != -1) = true := bne_iff_ne.mpr (by omega)
  rw [colStep_amount]
  simp only [firstIdxFrom]
  cases hm : m.amount_col_idx == -1 <;> cases hp : hitAmount c <;> simp_all [bne, hi]

theorem bal_step (i : Nat) (c : String) (t : List String) (m : ColIdx) :
    (if balIdxFrom ((colStep (i : Int) c m).amount_col_idx != -1) (i + 1) t != -1 then
       balIdxFrom ((colStep (i : Int) c m).amount_col_idx != -1) (i + 1) t
     else (colStep (i : Int) c m).balance_col_idx) =
    (if balIdxFrom (m.amount_col_idx != -1) i (c :: t) != -1 then
       balIdxFrom (m.amount_col_idx != -1) i (c :: t)
     else m.balance_col_idx) := by
  have hi : ((i : Int) != -1) = true := bne_iff_ne.mpr (by omega)
  rw [colStep_amount_taken, colStep_balance]
  conv_rhs => rw [balIdxFrom]
  cases hr : balIdxFrom ((m.amount_col_idx != -1) || hitAmount c) (i + 1) t != -1 <;>
    cases hp : reachesBal (m.amount_col_idx != -1) c <;> simp [hr, hp, hi]

theorem mapColumnsAux_spec (l : List String) : ∀ (i : Nat) (m : ColIdx),
    mapColumnsAux i m l = ⟨
      (if lastIdxFrom hitDate i l != -1 then lastIdxFrom hitDate i l else m.date_col_idx),
      (if lastIdxFrom hitDesc i l != -1 then lastIdxFrom hitDesc i l else m.desc_col_idx),
      (if lastIdxFrom hitCredit i l != -1 then lastIdxFrom hitCredit i l else m.credit_col_idx),
      (if lastIdxFrom hitDebit i l != -1 then lastIdxFrom hitDebit i l else m.debit_col_idx),
      (if m.amount_col_idx != -1 then m.amount_col_idx else firstIdxFrom hitAmount i l),
      (if balIdxFrom (m.amount_col_idx != -1) i l != -1 then
         balIdxFrom (m.amount_col_idx != -1) i l else m.balance_col_idx)⟩ := by
  induction l with
  | nil =>
    intro i m
    obtain ⟨d1, d2, d3, d4, d5, d6⟩ := m
    by_cases hm : d5 = -1 <;>
      simp [mapColumnsAux, lastIdxFrom, firstIdxFrom, balIdxFrom, hm]
  | cons c t ih =>
    intro i m
    show mapColumnsAux (i + 1) (colStep (i : Int) c m) t = _
    rw [ih (i + 1) (colStep (i : Int) c m)]
    rw [ColIdx.mk.injEq]
    refine ⟨?_, ?_, ?_, ?_, ?_, ?_⟩
    · rw [colStep_date, lastIdx_step]
    · rw [colStep_desc, lastIdx_step]
    · rw [colStep_credit, lastIdx_step]
    · rw [colStep_debit, lastIdx_step]
    · rw [first_step]
    · rw [bal_step]

end PDFParser

/-- Claim C2, counterexample: The claim's "a later matching column never
replaces an earlier assignment" fails: for the header `["Date", "Date"]` the
date role ends on column 1, not 0.  And the claim's side condition for the
generic-amount role ("only if neither credit nor debit has been assigned")
is not what the code tests (it tests only that no generic-amount column has
been assigned): for `["Credit", "Amount"]` the amount role is assigned to
column 1 although the credit role was already assigned to column 0. -/
theorem C2_counterexample :
    PDFParser.mapColumns ["Date", "Date"] = ⟨1, -1, -1, -1, -1, -1⟩ ∧
    (1 : Int) ≠ 0 ∧
    PDFParser.mapColumns ["Credit", "Amount"] = ⟨-1, -1, 0, -1, 1, -1⟩ ∧
    (1 : Int) ≠ -1 := by
  refine ⟨by decide, by decide, by decide, by decide⟩

/-- Claim C2, amended: For every header row, each cell is tested against role
keywords in the fixed precedence date, description, credit, debit,
generic-amount (generic-amount only if no generic-amount column has been
assigned yet), balance, at most one role per cell (first matching role wins,
as the `hit*` cell conditions express); across columns, the generic-amount
role is assigned to the first matching column left-to-right, while each
other role is assigned to the last matching column left-to-right (a later
matching column replaces an earlier assignment); a cell carrying the amount
keyword that fails the generic-amount side condition can still take the
balance role (`reachesBal`). -/
theorem C2_column_mapper (header : List String) :
    PDFParser.mapColumns header = ⟨
      PDFParser.lastIdxFrom PDFParser.hitDate 0 header,
      PDFParser.lastIdxFrom PDFParser.hitDesc 0 header,
      PDFParser.lastIdxFrom PDFParser.hitCredit 0 header,
      PDFParser.lastIdxFrom PDFParser.hitDebit 0 header,
      PDFParser.firstIdxFrom PDFParser.hitAmount 0 header,
      PDFParser.balIdxFrom false 0 header⟩ := by
  have hcollapse : ∀ x : Int, (if x != -1 then x else (-1 : Int)) = x := by
    intro x
    cases hx : x != -1
    · have : x = -1 := by simpa using hx
      simp [hx, this]
    · simp [hx]
  rw [PDFParser.mapColumns, PDFParser.mapColumnsAux_spec]
  simp [PDFParser.initCol, hcollapse]
  omega

/-! ## C1: end-to-end receipt scenario 1 -/

/-- Claim C1, counterexample: On the scenario text the Field Recognizer does
not return amount `45.67`, a vendor containing `SuperMart`, or confidence
`100.00`: the bare-number pattern also matches the year `2023`, which passes
the plausibility window and is the maximum candidate, so the amount is
`2023.0`; the single line contains a 4-digit run (and the blocked keyword
`date`), so no vendor line is accepted and the vendor is the default
`"Unknown Vendor"`; hence the confidence is `70.00`. -/
theorem C1_counterexample :
    ReceiptParser.parse_amount receiptText = some 2023 ∧
    some (2023 : ℚ) ≠ some (4567 / 100 : ℚ) ∧
    ReceiptParser.parse_vendor receiptText = "Unknown Vendor" ∧
    listContains (ReceiptParser.parse_vendor receiptText).data "SuperMart".data = false ∧
    ReceiptParser.parse_date 2026 receiptText = some "2023-05-12" ∧
    ReceiptParser.calculate_confidence (ReceiptParser.parse_amount receiptText)
      (ReceiptParser.parse_date 2026 receiptText)
      (some (ReceiptParser.parse_vendor receiptText)) = 70 ∧
    (70 : ℚ) ≠ 100 := by
  have ha : ReceiptParser.parse_amount receiptText = some 2023 := by with_unfolding_all rfl
  have hv : ReceiptParser.parse_vendor receiptText = "Unknown Vendor" := by
    with_unfolding_all rfl
  have hd : ReceiptParser.parse_date 2026 receiptText = some "2023-05-12" := by
    with_unfolding_all rfl
  refine ⟨ha, by with_unfolding_all decide, hv, ?_, hd, ?_, by with_unfolding_all decide⟩
  · rw [hv]; decide
  · rw [ha, hv, hd]
    with_unfolding_all rfl

/-- Claim C1, amended: For the receipt text
`"TOTAL: $45.67  Date: 12/05/2023  SuperMart Store"` (for any current year
from 2022 on, so that the year guard accepts 2023), the Field Recognizer
extracts amount `2023.0` (the year, matched by the whole-number pattern,
survives the plausibility window and is the largest candidate), the default
vendor `"Unknown Vendor"` (the only line contains a 4-digit run and the
blocked keyword `date`), the date `"2023-05-12"` under the day-first
priority order, and a confidence score of exactly `70.00`. -/
theorem C1_receipt_scenario (cy : Nat) (hcy : 2022 ≤ cy) :
    ReceiptParser.parse_amount receiptText = some 2023 ∧
    ReceiptParser.parse_date cy receiptText = some "2023-05-12" ∧
    ReceiptParser.parse_vendor receiptText = "Unknown Vendor" ∧
    ReceiptParser.calculate_confidence (ReceiptParser.parse_amount receiptText)
      (ReceiptParser.parse_date cy receiptText)
      (some (ReceiptParser.parse_vendor receiptText)) = 70 := by
  have hy : yearOK cy 2023 = true := decide_eq_true ⟨by omega, by omega⟩
  have ha : ReceiptParser.parse_amount receiptText = some 2023 := by with_unfolding_all rfl
  have hv : ReceiptParser.parse_vendor receiptText = "Unknown Vendor" := by
    with_unfolding_all rfl
  have hcand : ReceiptParser.dateCandidates receiptText = [⟨12, 5, 2023⟩] := by
    with_unfolding_all rfl
  have hd : ReceiptParser.parse_date cy receiptText = some "2023-05-12" := by
    unfold ReceiptParser.parse_date
    rw [hcand, findSome?_cons_eq]
    simp only [hy]
    rfl
  refine ⟨ha, hd, hv, ?_⟩
  rw [ha, hd, hv]
  with_unfolding_all rfl

/-- Witness for the amended C1 at current year 2026. -/
theorem C1_receipt_scenario_witness :
    2022 ≤ 2026 ∧
    (ReceiptParser.parse_amount receiptText = some 2023 ∧
     ReceiptParser.parse_date 2026 receiptText = some "2023-05-12" ∧
     ReceiptParser.parse_vendor receiptText = "Unknown Vendor" ∧
     ReceiptParser.calculate_confidence (ReceiptParser.parse_amount receiptText)
       (ReceiptParser.parse_date 2026 receiptText)
       (some (ReceiptParser.parse_vendor receiptText)) = 70) :=
  ⟨by omega, C1_receipt_scenario 2026 (by omega)⟩
